import Mathlib

/-!
Shallow embedding of the ngx_vts C glue layer (src/ngx_vts_wrapper.c and
src/ngx_http_vts_module.c) and proofs about its behaviour.

Modelling conventions:
- nginx strings (ngx_str_t) and C strings are modelled as lists of bytes
  (the content before the terminating NUL); a NULL ngx_str_t pointer is
  modelled with Option.
- machine integers are modelled as Nat / Int with explicit reductions
  mod 2 ^ 64 or 2 ^ 16 where the C code casts.
- the FFI calls into the Rust core (vts_update_server_stats_ffi and
  vts_track_upstream_request) are modelled as data recorded in the
  handler result, so theorems can talk about which calls are emitted and
  with which arguments.
- ngx_timeofday() is modelled by passing the current time (sec, msec) as
  extra arguments to the log-phase handler.
-/

namespace NgxVts

/-- Byte content of a C / nginx string (up to, not including, the NUL). -/
abbrev Bytes := List Nat

/-- nginx return code NGX_OK. -/
def NGX_OK : Int := 0

/-- nginx return code NGX_ERROR. -/
def NGX_ERROR : Int := -1

/-- nginx return code NGX_DECLINED. -/
def NGX_DECLINED : Int := -5

/-- nginx HTTP method bit for GET. -/
def NGX_HTTP_GET : Nat := 2

/-- nginx HTTP method bit for HEAD. -/
def NGX_HTTP_HEAD : Nat := 4

/-- nginx HTTP status NGX_HTTP_NOT_ALLOWED (405). -/
def NGX_HTTP_NOT_ALLOWED : Int := 405

/-- nginx HTTP status NGX_HTTP_INTERNAL_SERVER_ERROR (500). -/
def NGX_HTTP_INTERNAL_SERVER_ERROR : Int := 500

/-- Reduction mod 2 ^ 64, the effect of a cast to uint64_t on a Nat value. -/
def u64 (n : Nat) : Nat := n % 2 ^ 64

/-- Reduction mod 2 ^ 16, the effect of a cast to uint16_t on a Nat value. -/
def u16 (n : Nat) : Nat := n % 2 ^ 16

/-- The byte string "default". -/
def strDefault : Bytes := [100, 101, 102, 97, 117, 108, 116]

/-- The byte string "unknown". -/
def strUnknown : Bytes := [117, 110, 107, 110, 111, 119, 110]

/-- The byte string "_". -/
def strUnderscore : Bytes := [95]

/-- Model of ngx_http_upstream_state_t, the fields read by the handler. -/
structure UpstreamState where
  /-- state->peer, a nullable ngx_str_t pointer. -/
  peer : Option Bytes
  /-- state->response_time (ngx_msec_t). -/
  response_time : Nat
  /-- state->bytes_sent (off_t, non-negative here). -/
  bytes_sent : Nat
  /-- state->bytes_received (off_t, non-negative here). -/
  bytes_received : Nat
  /-- state->status (ngx_uint_t). -/
  status : Nat
deriving DecidableEq

/-- Model of ngx_http_upstream_t, the fields read by the handler. -/
structure Upstream where
  /-- u->conf->upstream->host when u->conf and u->conf->upstream are both
  non-NULL; none models either pointer being NULL. -/
  confUpstreamHost : Option Bytes
  /-- u->state, a nullable pointer. -/
  state : Option UpstreamState
deriving DecidableEq

/-- Model of ngx_http_request_t, the fields read by the log handler. -/
structure Request where
  /-- r->upstream, a nullable pointer. -/
  upstream : Option Upstream
  /-- r->headers_in.server. -/
  headers_in_server : Bytes
  /-- r->headers_out.status (ngx_uint_t). -/
  headers_out_status : Nat
  /-- r->request_length (off_t, non-negative here). -/
  request_length : Nat
  /-- r->connection->sent (off_t, non-negative here). -/
  connection_sent : Nat
  /-- r->start_sec (time_t, non-negative here). -/
  start_sec : Nat
  /-- r->start_msec (ngx_msec_t). -/
  start_msec : Nat
  /-- whether r->connection->log->action is non-NULL. -/
  log_action : Bool
deriving DecidableEq

/-- Arguments of one vts_update_server_stats_ffi call. -/
structure ServerCall where
  server_name : Bytes
  status : Nat
  bytes_in : Nat
  bytes_out : Nat
  request_time : Nat
deriving DecidableEq

/-- Arguments of one vts_track_upstream_request call. -/
structure UpstreamCall where
  upstream_name : Bytes
  server_addr : Bytes
  start_sec : Nat
  start_msec : Nat
  response_time : Nat
  bytes_sent : Nat
  bytes_received : Nat
  status : Nat
deriving DecidableEq

/-- Observable outcome of one run of the log-phase handler: which FFI
calls were emitted (none when not emitted) and the nginx return code. -/
structure LogResult where
  serverCall : Option ServerCall
  upstreamCall : Option UpstreamCall
  ret : Int
deriving DecidableEq

/-- Lines 71-74 of ngx_vts_wrapper.c: upstream_name is u->conf->upstream->host
when u->conf and u->conf->upstream are non-NULL, and stays the null string
(length 0) otherwise. -/
def derivedUpstreamName (u : Upstream) : Bytes :=
  match u.confUpstreamHost with
  | some h => h
  | none => []

/-- Lines 77-82: server_addr is *state->peer when u->state and state->peer are
non-NULL, and stays the null string otherwise. -/
def derivedPeer (u : Upstream) : Bytes :=
  match u.state with
  | some st =>
    match st.peer with
    | some p => p
    | none => []
  | none => []

/-- Lines 77-91: status_code is state->status when u->state is non-NULL, 0
otherwise. -/
def stateStatus (u : Upstream) : Nat :=
  match u.state with
  | some st => st.status
  | none => 0

/-- Lines 77-85: upstream_response_time is state->response_time when u->state
is non-NULL, 0 otherwise. -/
def stateResponseTime (u : Upstream) : Nat :=
  match u.state with
  | some st => st.response_time
  | none => 0

/-- Lines 77-87: bytes_sent from the upstream state, 0 when it is NULL. -/
def stateBytesSent (u : Upstream) : Nat :=
  match u.state with
  | some st => st.bytes_sent
  | none => 0

/-- Lines 77-88: bytes_received from the upstream state, 0 when it is NULL. -/
def stateBytesReceived (u : Upstream) : Nat :=
  match u.state with
  | some st => st.bytes_received
  | none => 0

/-- Lines 94-97: status_code falls back to r->headers_out.status when the
upstream-state status is 0. -/
def upstreamStatusCode (r : Request) (u : Upstream) : Nat :=
  if stateStatus u = 0 then r.headers_out_status else stateStatus u

/-- Lines 134-138: response_status is r->headers_out.status when non-zero,
otherwise the (already fallen-back) status_code, defaulting to 200 when
still zero. -/
def serverResponseStatus (r : Request) (u : Upstream) : Nat :=
  let response_status :=
    if r.headers_out_status ≠ 0 then r.headers_out_status else upstreamStatusCode r u
  if response_status = 0 then 200 else response_status

/-- Lines 102-124: the copy-or-substitute step into a 256-byte stack buffer.
When the string is non-empty and its length is below sizeof(buf) - 1 = 255
it is copied byte-for-byte (and NUL-terminated); otherwise the fixed
default token d is written instead via ngx_cpystrn. -/
def fillBuf (s d : Bytes) : Bytes :=
  if 0 < s.length ∧ s.length < 255 then s else d

/-- Lines 126-132: total request time in milliseconds. Computed as
(tp->sec - r->start_sec) * 1000 + (tp->msec - r->start_msec), reduced
mod 2 ^ 64 by the ngx_msec_t cast, but only when r->connection->log->action
is non-NULL; otherwise it stays 0. -/
def requestTimeMs (log_action : Bool) (now_sec now_msec start_sec start_msec : Nat) : Nat :=
  if log_action then
    ((((now_sec : Int) - (start_sec : Int)) * 1000
      + ((now_msec : Int) - (start_msec : Int))).emod (2 ^ 64)).toNat
  else 0

/-- Lines 68-178 of ngx_vts_wrapper.c: the body of ngx_http_vts_log_handler
after the NULL-upstream early return, for upstream u = r->upstream.
It always emits the server-zone call (vts_update_server_stats_ffi) and
emits the upstream-zone call (vts_track_upstream_request) exactly when
upstream_name.len > 0, then returns NGX_DECLINED. -/
def vts_log_handler_with_upstream (r : Request) (u : Upstream)
    (now_sec now_msec : Nat) : LogResult :=
  { serverCall := some
      { server_name := fillBuf r.headers_in_server strUnderscore
        status := u16 (serverResponseStatus r u)
        bytes_in := u64 r.request_length
        bytes_out := u64 r.connection_sent
        request_time := u64 (requestTimeMs r.log_action now_sec now_msec r.start_sec r.start_msec) }
    upstreamCall :=
      if 0 < (derivedUpstreamName u).length then
        some
          { upstream_name := fillBuf (derivedUpstreamName u) strDefault
            server_addr := fillBuf (derivedPeer u) strUnknown
            start_sec := u64 r.start_sec
            start_msec := u64 r.start_msec
            response_time := u64 (stateResponseTime u)
            bytes_sent := u64 (stateBytesSent u)
            bytes_received := u64 (stateBytesReceived u)
            status := u16 (upstreamStatusCode r u) }
      else none
    ret := NGX_DECLINED }

/-- Lines 42-179 of ngx_vts_wrapper.c: ngx_http_vts_log_handler. When
r->upstream is NULL it returns NGX_DECLINED immediately, emitting no FFI
call at all; otherwise it runs the body above. now_sec / now_msec model
ngx_timeofday(). -/
def ngx_http_vts_log_handler (r : Request) (now_sec now_msec : Nat) : LogResult :=
  match r.upstream with
  | none => { serverCall := none, upstreamCall := none, ret := NGX_DECLINED }
  | some u => vts_log_handler_with_upstream r u now_sec now_msec

/-- The derived upstream name of a request: the null string when
r->upstream is NULL, the derived name of the upstream otherwise. -/
def requestUpstreamName (r : Request) : Bytes :=
  match r.upstream with
  | some u => derivedUpstreamName u
  | none => []

/-- nginx sentinel NGX_CONF_UNSET, written into ngx_flag_t fields. -/
def NGX_CONF_UNSET : Int := -1

/-- nginx sentinel NGX_CONF_UNSET_SIZE, i.e. (size_t) -1 on a 64-bit
platform. -/
def NGX_CONF_UNSET_SIZE : Nat := 2 ^ 64 - 1

/-- Model of ngx_http_vts_loc_conf_t from ngx_http_vts_module.c. -/
structure VtsLocConf where
  enable : Int
  zone_size : Nat
  zone_name : Bytes
deriving DecidableEq

/-- Lines 159-173 of ngx_http_vts_module.c: ngx_http_vts_create_loc_conf
zero-fills the record (ngx_pcalloc) and then assigns the unset sentinels
to enable and zone_size; zone_name stays the zero value. -/
def ngx_http_vts_create_loc_conf : VtsLocConf :=
  { enable := NGX_CONF_UNSET, zone_size := NGX_CONF_UNSET_SIZE, zone_name := [] }

/-- The nginx ngx_conf_merge_value macro: keep conf when set, else take
prev when set, else the default. -/
def ngx_conf_merge_value (conf prev dflt : Int) : Int :=
  if conf = NGX_CONF_UNSET then (if prev = NGX_CONF_UNSET then dflt else prev) else conf

/-- The nginx ngx_conf_merge_size_value macro: keep conf when set, else
take prev when set, else the default. -/
def ngx_conf_merge_size_value (conf prev dflt : Nat) : Nat :=
  if conf = NGX_CONF_UNSET_SIZE then (if prev = NGX_CONF_UNSET_SIZE then dflt else prev) else conf

/-- Lines 176-186 of ngx_http_vts_module.c: ngx_http_vts_merge_loc_conf
merges enable with default 0 and zone_size with default 1024*1024, and
touches nothing else. -/
def ngx_http_vts_merge_loc_conf (prev conf : VtsLocConf) : VtsLocConf :=
  { conf with
    enable := ngx_conf_merge_value conf.enable prev.enable 0
    zone_size := ngx_conf_merge_size_value conf.zone_size prev.zone_size (1024 * 1024) }

/-- Environment of one run of the status handler: outcomes of the nginx
calls it makes (body discard, header send - which the source may reach
twice -, buffer allocation, output filter). -/
structure StatusEnv where
  /-- return code of ngx_http_discard_request_body. -/
  discard_rc : Int
  /-- return code of the ngx_http_send_header call in the HEAD branch. -/
  header_rc1 : Int
  /-- return code of the later ngx_http_send_header call. -/
  header_rc2 : Int
  /-- r->header_only. -/
  header_only : Bool
  /-- whether ngx_create_temp_buf returns NULL. -/
  buf_alloc_fails : Bool
  /-- return code of ngx_http_output_filter. -/
  output_filter_rc : Int
deriving DecidableEq

/-- Observable outcome of the status handler: the return code and whether
ngx_http_vts_get_status was called (i.e. the statistics store touched and a
report produced). -/
structure StatusResult where
  ret : Int
  calledGetStatus : Bool
deriving DecidableEq

/-- Lines 91-148 of ngx_http_vts_module.c: ngx_http_vts_status_handler.
Requests whose method bit is outside GET|HEAD are rejected with
NGX_HTTP_NOT_ALLOWED before ngx_http_vts_get_status is reached; the
remaining branches mirror the source control flow, with calledGetStatus
recording that the Rust status getter ran. -/
def ngx_http_vts_status_handler (method : Nat) (env : StatusEnv) : StatusResult :=
  if method &&& (NGX_HTTP_GET ||| NGX_HTTP_HEAD) = 0 then
    { ret := NGX_HTTP_NOT_ALLOWED, calledGetStatus := false }
  else if env.discard_rc ≠ NGX_OK then
    { ret := env.discard_rc, calledGetStatus := false }
  else if method = NGX_HTTP_HEAD
      ∧ (env.header_rc1 = NGX_ERROR ∨ NGX_OK < env.header_rc1 ∨ env.header_only = true) then
    { ret := env.header_rc1, calledGetStatus := true }
  else if env.buf_alloc_fails = true then
    { ret := NGX_HTTP_INTERNAL_SERVER_ERROR, calledGetStatus := true }
  else if env.header_rc2 = NGX_ERROR ∨ NGX_OK < env.header_rc2 ∨ env.header_only = true then
    { ret := env.header_rc2, calledGetStatus := true }
  else
    { ret := env.output_filter_rc, calledGetStatus := true }

/-- The nginx HTTP method bit constants (ngx_http_request.h): UNKNOWN, GET,
HEAD, POST, PUT, DELETE, MKCOL, COPY, MOVE, OPTIONS, PROPFIND, PROPPATCH,
LOCK, UNLOCK, PATCH, TRACE, CONNECT. -/
def ngxMethodCodes : List Nat :=
  [1, 2, 4, 8, 16, 32, 64, 128, 256, 512, 1024, 2048, 4096, 8192, 16384, 32768, 65536]

/-- A concrete upstream used in witnesses: name "api", peer "p1",
response_time 7, bytes 10/20, status 502. -/
def upA : Upstream :=
  { confUpstreamHost := some [97, 112, 105]
    state := some
      { peer := some [112, 49]
        response_time := 7
        bytes_sent := 10
        bytes_received := 20
        status := 502 } }

/-- A concrete request used in witnesses: upstream upA, server "sv",
outbound status 200, started at 10 s 500 ms, with a log action set. -/
def reqA : Request :=
  { upstream := some upA
    headers_in_server := [115, 118]
    headers_out_status := 200
    request_length := 100
    connection_sent := 300
    start_sec := 10
    start_msec := 500
    log_action := true }

/-- reqA with no upstream. -/
def reqNoUp : Request := { reqA with upstream := none }

/-- reqA with r->connection->log->action NULL. -/
def reqNoAction : Request := { reqA with log_action := false }

/-- upA with u->conf->upstream unreachable, so the derived name is empty. -/
def upNoName : Upstream := { upA with confUpstreamHost := none }

/-- reqA with an upstream whose derived name is empty. -/
def reqNoName : Request := { reqA with upstream := some upNoName }

/-- An upstream whose derived name is 255 bytes long. -/
def upLong : Upstream :=
  { confUpstreamHost := some (List.replicate 255 98), state := none }

/-- reqA with a 255-byte server name and the 255-byte-named upstream. -/
def reqLong : Request :=
  { reqA with upstream := some upLong, headers_in_server := List.replicate 255 97 }

/-- A benign status-handler environment: every nginx call succeeds. -/
def envA : StatusEnv :=
  { discard_rc := 0
    header_rc1 := 0
    header_rc2 := 0
    header_only := false
    buf_alloc_fails := false
    output_filter_rc := 0 }

theorem log_handler_none (r : Request) (now_sec now_msec : Nat)
    (h : r.upstream = none) :
    ngx_http_vts_log_handler r now_sec now_msec =
      { serverCall := none, upstreamCall := none, ret := NGX_DECLINED } := by
  unfold ngx_http_vts_log_handler
  rw [h]

theorem log_handler_some (r : Request) (u : Upstream) (now_sec now_msec : Nat)
    (h : r.upstream = some u) :
    ngx_http_vts_log_handler r now_sec now_msec =
      vts_log_handler_with_upstream r u now_sec now_msec := by
  unfold ngx_http_vts_log_handler
  rw [h]

/-- Claim C4: ngx_http_vts_log_handler returns NGX_DECLINED on every
execution path - both when no upstream exists and after the update calls -
and never returns an error code. -/
theorem C4_always_declined (r : Request) (now_sec now_msec : Nat) :
    (ngx_http_vts_log_handler r now_sec now_msec).ret = NGX_DECLINED := by
  cases hr : r.upstream with
  | none => rw [log_handler_none r now_sec now_msec hr]
  | some u => rw [log_handler_some r u now_sec now_msec hr]; rfl

/-- Claim C1 counterexample: the claim says the server-zone update is
delivered unconditionally for every completed request, but on a request
whose r->upstream is NULL the handler returns before any call, so no
server-zone update is emitted. -/
theorem C1_counterexample :
    (ngx_http_vts_log_handler reqNoUp 10 600).serverCall = none := by
  rw [log_handler_none reqNoUp 10 600 rfl]

/-- Claim C1 (amended): for every completed request with a non-NULL
r->upstream, the handler delivers the server-zone update unconditionally
and the upstream-zone update exactly when the derived upstream name is
non-empty; a request with no upstream delivers neither update. -/
theorem C1_amended_updates_gated_on_upstream (r : Request) (now_sec now_msec : Nat) :
    (r.upstream = none →
      (ngx_http_vts_log_handler r now_sec now_msec).serverCall = none ∧
      (ngx_http_vts_log_handler r now_sec now_msec).upstreamCall = none) ∧
    (∀ u, r.upstream = some u →
      (ngx_http_vts_log_handler r now_sec now_msec).serverCall.isSome = true ∧
      ((ngx_http_vts_log_handler r now_sec now_msec).upstreamCall.isSome = true ↔
        0 < (derivedUpstreamName u).length)) := by
  constructor
  · intro h
    rw [log_handler_none r now_sec now_msec h]
    exact ⟨rfl, rfl⟩
  · intro u h
    rw [log_handler_some r u now_sec now_msec h]
    refine ⟨rfl, ?_⟩
    unfold vts_log_handler_with_upstream
    by_cases hl : 0 < (derivedUpstreamName u).length <;> simp [hl]

/-- Claim C1 witness: on the concrete request reqA (upstream present, name
"api") the server-zone update is emitted and the upstream-zone update is
emitted as well. -/
theorem C1_witness :
    (ngx_http_vts_log_handler reqA 10 600).serverCall.isSome = true ∧
    ((ngx_http_vts_log_handler reqA 10 600).upstreamCall.isSome = true ↔
      0 < (derivedUpstreamName upA).length) :=
  (C1_amended_updates_gated_on_upstream reqA 10 600).2 upA rfl

/-- Claim C2: for every request whose derived upstream name is the empty
string, vts_track_upstream_request is not called - the upstream event is
discarded as a no-op. -/
theorem C2_empty_upstream_name_noop (r : Request) (now_sec now_msec : Nat)
    (h : requestUpstreamName r = []) :
    (ngx_http_vts_log_handler r now_sec now_msec).upstreamCall = none := by
  cases hr : r.upstream with
  | none => rw [log_handler_none r now_sec now_msec hr]
  | some u =>
    rw [log_handler_some r u now_sec now_msec hr]
    have h' : derivedUpstreamName u = [] := by
      unfold requestUpstreamName at h
      rw [hr] at h
      exact h
    unfold vts_log_handler_with_upstream
    simp [h']

/-- Claim C2 witness: on the concrete request reqNoName, whose upstream
configuration yields an empty name, no upstream-zone call is emitted. -/
theorem C2_witness :
    (ngx_http_vts_log_handler reqNoName 10 600).upstreamCall = none :=
  C2_empty_upstream_name_noop reqNoName 10 600 rfl

/-- Claim C3: the status attached to the server-zone update prefers
r->headers_out.status, falls back to the upstream-state status, and is
200 when both are zero (all reduced mod 2 ^ 16 by the uint16_t cast). -/
theorem C3_status_preference (r : Request) (u : Upstream) (now_sec now_msec : Nat)
    (h : r.upstream = some u) :
    ∃ sc, (ngx_http_vts_log_handler r now_sec now_msec).serverCall = some sc ∧
      sc.status = u16 (if r.headers_out_status ≠ 0 then r.headers_out_status
        else if stateStatus u ≠ 0 then stateStatus u else 200) := by
  rw [log_handler_some r u now_sec now_msec h]
  refine ⟨_, rfl, ?_⟩
  show u16 (serverResponseStatus r u) = _
  unfold serverResponseStatus upstreamStatusCode
  by_cases h1 : r.headers_out_status = 0 <;> by_cases h2 : stateStatus u = 0 <;>
    simp [h1, h2]

/-- Claim C3 witness: on the concrete request reqA the attached status
follows the preference rule (here headers_out.status = 200 wins). -/
theorem C3_witness :
    ∃ sc, (ngx_http_vts_log_handler reqA 10 600).serverCall = some sc ∧
      sc.status = u16 (if reqA.headers_out_status ≠ 0 then reqA.headers_out_status
        else if stateStatus upA ≠ 0 then stateStatus upA else 200) :=
  C3_status_preference reqA upA 10 600 rfl

/-- Claim C5 counterexample: the claim says the server-zone response time
is the total request lifetime computed from request start time to now, but
the code only computes it when r->connection->log->action is non-NULL.
On reqNoAction at time (11 s, 500 ms) the lifetime is
(11 - 10) * 1000 + (500 - 500) = 1000 ms, yet the forwarded value is 0. -/
theorem C5_counterexample :
    ∃ sc, (ngx_http_vts_log_handler reqNoAction 11 500).serverCall = some sc ∧
      sc.request_time = 0 ∧
      (((11 : Int) - reqNoAction.start_sec) * 1000
        + ((500 : Int) - reqNoAction.start_msec)) = 1000 ∧
      (0 : Nat) ≠ 1000 := by
  rw [log_handler_some reqNoAction upA 11 500 rfl]
  exact ⟨_, rfl, rfl, by decide, by decide⟩

/-- Claim C5 (amended): on the server-zone path the forwarded response
time is the total request lifetime from r->start_sec/start_msec to now
(reduced mod 2 ^ 64) when r->connection->log->action is set, and 0
otherwise; on the upstream-zone path it is taken only from the upstream
state's response_time (0 when the state is NULL). The two values are
sourced independently. -/
theorem C5_amended_response_time_sources (r : Request) (u : Upstream)
    (now_sec now_msec : Nat) (h : r.upstream = some u) :
    (r.log_action = true →
      ∃ sc, (ngx_http_vts_log_handler r now_sec now_msec).serverCall = some sc ∧
        sc.request_time = ((((now_sec : Int) - (r.start_sec : Int)) * 1000
          + ((now_msec : Int) - (r.start_msec : Int))).emod (2 ^ 64)).toNat) ∧
    (r.log_action = false →
      ∃ sc, (ngx_http_vts_log_handler r now_sec now_msec).serverCall = some sc ∧
        sc.request_time = 0) ∧
    (∀ uc, (ngx_http_vts_log_handler r now_sec now_msec).upstreamCall = some uc →
      uc.response_time = u64 (stateResponseTime u)) := by
  rw [log_handler_some r u now_sec now_msec h]
  have hlt : ∀ z : Int,
      (z.emod (2 ^ 64)).toNat % 2 ^ 64 = (z.emod (2 ^ 64)).toNat := by
    intro z
    apply Nat.mod_eq_of_lt
    have h1 : z.emod (2 ^ 64) < 2 ^ 64 := Int.emod_lt_of_pos z (by norm_num)
    omega
  refine ⟨?_, ?_, ?_⟩
  · intro ha
    refine ⟨_, rfl, ?_⟩
    show u64 (requestTimeMs r.log_action now_sec now_msec r.start_sec r.start_msec) = _
    rw [ha]
    unfold requestTimeMs u64
    simp only [if_true]
    exact hlt _
  · intro ha
    refine ⟨_, rfl, ?_⟩
    show u64 (requestTimeMs r.log_action now_sec now_msec r.start_sec r.start_msec) = 0
    rw [ha]
    rfl
  · intro uc huc
    unfold vts_log_handler_with_upstream at huc
    by_cases hl : 0 < (derivedUpstreamName u).length
    · simp only [hl, if_true] at huc
      have := congrArg (Option.map UpstreamCall.response_time) huc
      simp at this
      rw [← this]
    · simp only [hl, if_false] at huc
      exact absurd huc (by simp)

/-- Claim C5 witness: on reqA (log action set) at time (11 s, 600 ms) the
server-zone call carries the elapsed lifetime (11 - 10) * 1000 +
(600 - 500) = 1100 ms. -/
theorem C5_witness :
    ∃ sc, (ngx_http_vts_log_handler reqA 11 600).serverCall = some sc ∧
      sc.request_time = ((((11 : Int) - (reqA.start_sec : Int)) * 1000
        + ((600 : Int) - (reqA.start_msec : Int))).emod (2 ^ 64)).toNat :=
  (C5_amended_response_time_sources reqA upA 11 600 rfl).1 rfl

/-- Claim C6: an empty server name is normalized to "_" and an empty
upstream peer address is normalized to "unknown" before reaching the
core; non-empty values whose length is within the 255-byte bound are
passed through byte-for-byte (the terminating NUL of the C string is left
implicit in the byte-list model). -/
theorem C6_default_token_normalization (r : Request) (u : Upstream)
    (now_sec now_msec : Nat) (h : r.upstream = some u) :
    (∃ sc, (ngx_http_vts_log_handler r now_sec now_msec).serverCall = some sc ∧
      (r.headers_in_server.length = 0 → sc.server_name = strUnderscore) ∧
      (0 < r.headers_in_server.length → r.headers_in_server.length < 255 →
        sc.server_name = r.headers_in_server)) ∧
    (∀ uc, (ngx_http_vts_log_handler r now_sec now_msec).upstreamCall = some uc →
      ((derivedPeer u).length = 0 → uc.server_addr = strUnknown) ∧
      (0 < (derivedPeer u).length → (derivedPeer u).length < 255 →
        uc.server_addr = derivedPeer u) ∧
      (0 < (derivedUpstreamName u).length → (derivedUpstreamName u).length < 255 →
        uc.upstream_name = derivedUpstreamName u)) := by
  rw [log_handler_some r u now_sec now_msec h]
  constructor
  · refine ⟨_, rfl, ?_, ?_⟩
    · intro he
      show fillBuf r.headers_in_server strUnderscore = strUnderscore
      unfold fillBuf
      simp [he]
    · intro h1 h2
      show fillBuf r.headers_in_server strUnderscore = r.headers_in_server
      unfold fillBuf
      simp [h1, h2]
  · intro uc huc
    unfold vts_log_handler_with_upstream at huc
    by_cases hl : 0 < (derivedUpstreamName u).length
    · simp only [hl, if_true, Option.some.injEq] at huc
      subst huc
      refine ⟨?_, ?_, ?_⟩
      · intro he
        show fillBuf (derivedPeer u) strUnknown = strUnknown
        unfold fillBuf
        simp [he]
      · intro h1 h2
        show fillBuf (derivedPeer u) strUnknown = derivedPeer u
        unfold fillBuf
        simp [h1, h2]
      · intro h1 h2
        show fillBuf (derivedUpstreamName u) strDefault = derivedUpstreamName u
        unfold fillBuf
        simp [h1, h2]
    · simp only [hl, if_false] at huc
      exact absurd huc (by simp)

/-- Claim C6 witness: on reqA the two-byte server name "sv" is passed
through unchanged to the server-zone call. -/
theorem C6_witness :
    ∃ sc, (ngx_http_vts_log_handler reqA 10 600).serverCall = some sc ∧
      sc.server_name = reqA.headers_in_server := by
  obtain ⟨⟨sc, hsc, _, hpass⟩, _⟩ := C6_default_token_normalization reqA upA 10 600 rfl
  exact ⟨sc, hsc, hpass (by decide) (by decide)⟩

/-- Claim C7: when zone_size is unset (the create-time sentinel) in both
the location configuration and its parent, merging assigns the default
1 MiB = 1024 * 1024 bytes; when set at either level the more specific
(child) value wins, falling back to the parent's value; merging changes
nothing else about the configuration beyond the two merged fields
(zone_name is untouched). -/
theorem C7_zone_size_merge (prev conf : VtsLocConf) :
    ngx_http_vts_create_loc_conf.zone_size = NGX_CONF_UNSET_SIZE ∧
    ((conf.zone_size = NGX_CONF_UNSET_SIZE ∧ prev.zone_size = NGX_CONF_UNSET_SIZE) →
      (ngx_http_vts_merge_loc_conf prev conf).zone_size = 1024 * 1024) ∧
    (conf.zone_size ≠ NGX_CONF_UNSET_SIZE →
      (ngx_http_vts_merge_loc_conf prev conf).zone_size = conf.zone_size) ∧
    ((conf.zone_size = NGX_CONF_UNSET_SIZE ∧ prev.zone_size ≠ NGX_CONF_UNSET_SIZE) →
      (ngx_http_vts_merge_loc_conf prev conf).zone_size = prev.zone_size) ∧
    (ngx_http_vts_merge_loc_conf prev conf).zone_name = conf.zone_name := by
  refine ⟨rfl, ?_, ?_, ?_, rfl⟩
  · rintro ⟨h1, h2⟩
    show ngx_conf_merge_size_value conf.zone_size prev.zone_size (1024 * 1024) = 1024 * 1024
    unfold ngx_conf_merge_size_value
    simp [h1, h2]
  · intro h1
    show ngx_conf_merge_size_value conf.zone_size prev.zone_size (1024 * 1024) = conf.zone_size
    unfold ngx_conf_merge_size_value
    simp [h1]
  · rintro ⟨h1, h2⟩
    show ngx_conf_merge_size_value conf.zone_size prev.zone_size (1024 * 1024) = prev.zone_size
    unfold ngx_conf_merge_size_value
    simp [h1, h2]

/-- Claim C7 witness: merging two freshly created (unset) configurations
yields the default zone_size of 1 MiB. -/
theorem C7_witness :
    (ngx_http_vts_merge_loc_conf ngx_http_vts_create_loc_conf
      ngx_http_vts_create_loc_conf).zone_size = 1024 * 1024 :=
  (C7_zone_size_merge ngx_http_vts_create_loc_conf ngx_http_vts_create_loc_conf).2.1
    ⟨rfl, rfl⟩

/-- Claim C9: for every request to the status endpoint whose HTTP method
is neither GET nor HEAD (over nginx's method bit codes), the status
handler returns NGX_HTTP_NOT_ALLOWED (405) without calling
ngx_http_vts_get_status, i.e. without producing a report or touching the
statistics store. -/
theorem C9_method_not_allowed (method : Nat) (env : StatusEnv)
    (hm : method ∈ ngxMethodCodes) (hg : method ≠ NGX_HTTP_GET)
    (hh : method ≠ NGX_HTTP_HEAD) :
    ngx_http_vts_status_handler method env =
      { ret := NGX_HTTP_NOT_ALLOWED, calledGetStatus := false } := by
  have hmask : method &&& (NGX_HTTP_GET ||| NGX_HTTP_HEAD) = 0 := by
    unfold ngxMethodCodes at hm
    unfold NGX_HTTP_GET NGX_HTTP_HEAD at *
    fin_cases hm <;> first | rfl | exact absurd rfl hg | exact absurd rfl hh
  unfold ngx_http_vts_status_handler
  rw [hmask]
  rfl

/-- Claim C9 witness: a POST (method bit 8) to the status endpoint in a
benign environment yields 405 and no report. -/
theorem C9_witness :
    ngx_http_vts_status_handler 8 envA =
      { ret := NGX_HTTP_NOT_ALLOWED, calledGetStatus := false } :=
  C9_method_not_allowed 8 envA (by decide) (by decide) (by decide)

/-- Claim C10: any server name, upstream name or peer address of length
255 bytes or more is replaced by its fixed default token ("_", "default",
"unknown") rather than truncated, so every forwarded string fits the
256-byte stack buffers (content of at most 255 bytes plus the NUL); and
an over-long upstream name still triggers the upstream-zone update,
recorded under "default". -/
theorem C10_overlong_defaults (r : Request) (u : Upstream)
    (now_sec now_msec : Nat) (h : r.upstream = some u) :
    (∃ sc, (ngx_http_vts_log_handler r now_sec now_msec).serverCall = some sc ∧
      sc.server_name.length ≤ 255 ∧
      (255 ≤ r.headers_in_server.length → sc.server_name = strUnderscore)) ∧
    (∀ uc, (ngx_http_vts_log_handler r now_sec now_msec).upstreamCall = some uc →
      uc.upstream_name.length ≤ 255 ∧ uc.server_addr.length ≤ 255 ∧
      (255 ≤ (derivedUpstreamName u).length → uc.upstream_name = strDefault) ∧
      (255 ≤ (derivedPeer u).length → uc.server_addr = strUnknown)) ∧
    (255 ≤ (derivedUpstreamName u).length →
      (ngx_http_vts_log_handler r now_sec now_msec).upstreamCall.isSome = true) := by
  have hlen : ∀ s d : Bytes, d.length ≤ 255 → (fillBuf s d).length ≤ 255 := by
    intro s d hd
    unfold fillBuf
    by_cases hc : 0 < s.length ∧ s.length < 255
    · rw [if_pos hc]; omega
    · rw [if_neg hc]; exact hd
  have hbig : ∀ s d : Bytes, 255 ≤ s.length → fillBuf s d = d := by
    intro s d hs
    unfold fillBuf
    have : ¬ (0 < s.length ∧ s.length < 255) := by omega
    simp [this]
  rw [log_handler_some r u now_sec now_msec h]
  refine ⟨⟨_, rfl, ?_, ?_⟩, ?_, ?_⟩
  · exact hlen _ _ (by decide)
  · intro hs
    exact hbig _ _ hs
  · intro uc huc
    unfold vts_log_handler_with_upstream at huc
    by_cases hl : 0 < (derivedUpstreamName u).length
    · simp only [hl, if_true, Option.some.injEq] at huc
      subst huc
      exact ⟨hlen _ _ (by decide), hlen _ _ (by decide),
        fun hs => hbig _ _ hs, fun hs => hbig _ _ hs⟩
    · simp only [hl, if_false] at huc
      exact absurd huc (by simp)
  · intro hs
    unfold vts_log_handler_with_upstream
    have hl : 0 < (derivedUpstreamName u).length := by omega
    simp [hl]

/-- Claim C10 witness: on reqLong, whose server name and upstream name are
both 255 bytes long, the server-zone call carries "_", the upstream-zone
call is still emitted, and it carries the name "default". -/
theorem C10_witness :
    ∃ sc, (ngx_http_vts_log_handler reqLong 10 600).serverCall = some sc ∧
      sc.server_name.length ≤ 255 ∧ sc.server_name = strUnderscore ∧
      (ngx_http_vts_log_handler reqLong 10 600).upstreamCall.isSome = true := by
  obtain ⟨⟨sc, hsc, hle, hdef⟩, _, hsome⟩ :=
    C10_overlong_defaults reqLong upLong 10 600 rfl
  have h1 : 255 ≤ reqLong.headers_in_server.length := by
    show 255 ≤ (List.replicate 255 97).length
    rw [List.length_replicate]
  have h2 : 255 ≤ (derivedUpstreamName upLong).length := by
    show 255 ≤ (List.replicate 255 98).length
    rw [List.length_replicate]
  exact ⟨sc, hsc, hle, hdef h1, hsome h2⟩

end NgxVts
